import Mathlib

/-!
Verification of the Striper repository's core "Stripe method" modules
(`app/stripe.py`, `app/openai_client.py`) against its specification.

Python strings are modelled as Lean `String`, Python `float` as `ℝ`,
Python sets of indices as `Finset ℕ`.  The two external oracles
(`call_model`, `get_embedding`) and the float-string parser used by
`_get_similarity_threshold` are universally quantified parameters: every
theorem about the search engine holds for every oracle behaviour.  The
oracles are networked services whose replies may vary between calls, so
they additionally receive the index of the round trip (0 for the
baseline call, counting completion/embedding pairs): a trace semantics
of the oracle; a pure oracle is the special case that ignores the index.
-/

namespace Striper

/-- Python whitespace characters recognised by `str.strip`, `str.split`
and the regex class `\s` (ASCII range). -/
def isPySpace (c : Char) : Bool :=
  c == ' ' || c == '\t' || c == '\n' || c == '\r' || c == '\x0b' || c == '\x0c'

/-- Python `str.strip()`: drop leading and trailing whitespace. -/
def pyStrip (s : String) : String :=
  String.mk (((s.toList.dropWhile isPySpace).reverse.dropWhile isPySpace).reverse)

/-- Split at each newline character, keeping empty pieces, as Python
`prompt.split("\n")` does. -/
def splitLinesAux : List Char → List Char → List String
  | [], acc => [String.mk acc.reverse]
  | c :: rest, acc =>
    if c == '\n' then String.mk acc.reverse :: splitLinesAux rest []
    else splitLinesAux rest (c :: acc)

/-- Python `prompt.split("\n")`. -/
def splitLines (s : String) : List String :=
  splitLinesAux s.toList []

/-- ASCII decimal digit, the `\d` class of the list-marker regex. -/
def isPyDigit (c : Char) : Bool :=
  '0' ≤ c && c ≤ '9'

/-- Match of `_LIST_MARKER_RE = ^\s*[-•*]|\s*\d+[.)]\s` at the start of a
line (`re.match` anchors both alternatives at position 0). -/
def listMarkerMatch (cs : List Char) : Bool :=
  let rest := cs.dropWhile isPySpace
  (match rest with
   | c :: _ => c == '-' || c == '•' || c == '*'
   | [] => false)
  ||
  (let ds := rest.takeWhile isPyDigit
   let after := rest.drop ds.length
   ds ≠ [] &&
   (match after with
    | c :: c2 :: _ => (c == '.' || c == ')') && isPySpace c2
    | _ => false))

/-- Boolean form of `_LIST_MARKER_RE.match(line)` on a whole line. -/
def listMarkerRe (line : String) : Bool :=
  listMarkerMatch line.toList

/-- Sentence-terminating punctuation of the split regex `(?<=[.!?])\s+`. -/
def isSentEnd (c : Char) : Bool :=
  c == '.' || c == '!' || c == '?'

/-- Character-level walk implementing `re.split(r"(?<=[.!?])\s+", line)`:
a boundary is a `.`, `!` or `?` immediately followed by whitespace; the
whitespace run is the separator (consumed in state `none`), the
punctuation stays attached to the left part. -/
def splitSentencesAux : List Char → Option (List Char) → List String
  | [], none => [""]
  | [], some acc => [String.mk acc.reverse]
  | c :: rest, st =>
    if isPySpace c && st.isNone then
      splitSentencesAux rest none
    else
      let acc := st.getD []
      if isSentEnd c && isPySpace (rest.headD 'x') then
        String.mk (acc.reverse ++ [c]) :: splitSentencesAux rest none
      else
        splitSentencesAux rest (some (c :: acc))

/-- Split a line at sentence boundaries, keeping punctuation attached. -/
def splitSentences (line : String) : List String :=
  splitSentencesAux line.toList (some [])

/-- Embedding of `parse_components` from `app/stripe.py`: split on
newlines, strip and drop empty lines; keep list-marker lines whole,
otherwise split at sentence boundaries, strip and drop empty parts; if
nothing was produced, fall back to the stripped prompt (or nothing when
that is empty). -/
def parse_components (prompt : String) : List String :=
  let lines := ((splitLines prompt).map pyStrip).filter (fun l => l ≠ "")
  let components := lines.flatMap (fun line =>
    if listMarkerRe line then [line]
    else ((splitSentences line).map pyStrip).filter (fun p => p ≠ ""))
  if components = [] then
    (if pyStrip prompt = "" then [] else [pyStrip prompt])
  else components

/-! Execution-task wrapper strings of `app/stripe.py`. -/

def EXECUTION_TASK_INTRO : String :=
  "Below are instructions for an AI assistant. Imagine you are that assistant. Produce a SHORT sample response (2-3 sentences) "

def EXECUTION_TASK_DEFAULT_INPUT : String :=
  "as you would reply to a user asking \x27What can you help me with?\x27 "

def EXECUTION_TASK_OUTRO : String :=
  "Follow the instructions exactly.\n\n---\n\n"

/-- Embedding of `_build_full_prompt`.  Python tests `if user_input:` by
truthiness, so `some ""` takes the default branch exactly like `none`. -/
def _build_full_prompt (prompt_text : String) (user_input : Option String) : String :=
  match user_input with
  | some ui =>
    if ui = "" then
      EXECUTION_TASK_INTRO ++ EXECUTION_TASK_DEFAULT_INPUT ++ EXECUTION_TASK_OUTRO ++ prompt_text
    else
      EXECUTION_TASK_INTRO ++ "The user has sent you the following input. Respond to it. "
        ++ EXECUTION_TASK_OUTRO ++ prompt_text ++ "\n\nUser input:\n" ++ ui
  | none =>
      EXECUTION_TASK_INTRO ++ EXECUTION_TASK_DEFAULT_INPUT ++ EXECUTION_TASK_OUTRO ++ prompt_text

/-! Client resolution from `app/openai_client.py`.  The constructed
`OpenAI` client objects are modelled by which credential they hold. -/

/-- Which credential a resolved client ends up configured with. -/
inductive ResolvedClient
  | provided (key : String)
  | openrouter (key : String)
  | openaiEnv (key : String)
  deriving DecidableEq

/-- Python truthiness of an optional string: `None` and `""` are falsy,
every other string (including whitespace-only) is truthy. -/
def pyTruthy (s : Option String) : Bool :=
  match s with
  | some v => v ≠ ""
  | none => false

/-- Embedding of `get_client`: OpenRouter key wins, else OpenAI key, else
a credential-configuration error is raised. -/
def get_client (openrouter_key openai_key : Option String) : Except String ResolvedClient :=
  if pyTruthy openrouter_key then
    Except.ok (ResolvedClient.openrouter (openrouter_key.getD ""))
  else if pyTruthy openai_key then
    Except.ok (ResolvedClient.openaiEnv (openai_key.getD ""))
  else
    Except.error "Set OPENROUTER_API_KEY or OPENAI_API_KEY environment variable"

/-- Embedding of `_resolve_client`: `OpenAI(api_key=api_key) if api_key
else get_client()` — the per-call key is used whenever it is truthy. -/
def _resolve_client (api_key openrouter_key openai_key : Option String) :
    Except String ResolvedClient :=
  if pyTruthy api_key then Except.ok (ResolvedClient.provided (api_key.getD ""))
  else get_client openrouter_key openai_key

noncomputable section

/-- Embedding of `cosine_similarity`: dot product over the zipped vectors
divided by the product of the Euclidean norms, with a defined 0.0 result
when either norm is zero.  Python `** 0.5` on the non-negative sum of
squares is `Real.sqrt`. -/
def cosine_similarity (a b : List ℝ) : ℝ :=
  if Real.sqrt ((a.map (fun x => x * x)).sum) = 0 ∨
      Real.sqrt ((b.map (fun x => x * x)).sum) = 0 then 0
  else
    ((a.zip b).map (fun p => p.1 * p.2)).sum /
      (Real.sqrt ((a.map (fun x => x * x)).sum) * Real.sqrt ((b.map (fun x => x * x)).sum))

/-- Python `round` to an integer: round-half-to-even (banker's rounding),
modelled on the real value. -/
def pyRound (x : ℝ) : ℤ :=
  if x - Int.floor x = 1 / 2 then
    (if Even (Int.floor x) then Int.floor x else Int.floor x + 1)
  else round x

/-- Python `round(x, 2)`. -/
def pyRound2 (x : ℝ) : ℝ :=
  (pyRound (100 * x) : ℝ) / 100

/-- Default similarity threshold of `app/stripe.py`. -/
def DEFAULT_SIMILARITY_THRESHOLD : ℝ := 0.92

/-- Embedding of `_get_similarity_threshold`.  The environment is a
parameter `env` (the value of `SIMILARITY_THRESHOLD`, absent or present)
and Python `float(...)` parsing is an abstract parameter `pf`, returning
`none` exactly when parsing raises `ValueError`.  A parsed value is
clamped by `max(0.0, min(1.0, val))`; a parse failure falls back to the
default.  `str(DEFAULT_SIMILARITY_THRESHOLD)` is the literal "0.92". -/
def _get_similarity_threshold (pf : String → Option ℝ) (env : Option String) : ℝ :=
  let raw := env.getD "0.92"
  match pf raw with
  | some val => max 0 (min 1 val)
  | none => DEFAULT_SIMILARITY_THRESHOLD

/-- Analysis result record of `_build_analysis_result`. -/
structure AnalysisResult where
  over_engineered_score : ℝ
  improved_prompt : String
  components_removed : List String
  components_kept : List String
  total_components : ℕ

/-- Embedding of `_classify_components`: kept components are those whose
original index is not redundant, removed those whose index is, both in
original enumeration order. -/
def _classify_components (components : List String) (redundant_indices : Finset ℕ) :
    List String × List String :=
  ((components.enum.filter (fun p => p.1 ∉ redundant_indices)).map Prod.snd,
   (components.enum.filter (fun p => p.1 ∈ redundant_indices)).map Prod.snd)

/-- Embedding of `_build_improved_prompt`: join kept components with
single spaces, or the fallback when none are kept. -/
def _build_improved_prompt (components_kept : List String) (fallback : String) : String :=
  if components_kept = [] then fallback else " ".intercalate components_kept

/-- Render the components at an ascending-sorted index list, joined by
single spaces, as Python does with generator joins over sorted sets. -/
def renderIndices (components : List String) (idxs : List ℕ) : String :=
  " ".intercalate (idxs.map (fun i => components.getD i ""))

variable (cm : ℕ → String → Option String → String)
variable (ge : ℕ → String → Option String → List ℝ)

/-- Embedding of `_test_removal_similarity` at round-trip index `k`: drop
`remove_index` from the active set; with nothing remaining the
similarity is the defined 0.0 and no oracle is consulted, otherwise the
stripped prompt is rendered in ascending index order, wrapped, completed,
embedded and compared to the baseline. -/
def _test_removal_similarity (k : ℕ) (components : List String) (remove_index : ℕ)
    (active_indices : Finset ℕ) (baseline_embedding : List ℝ)
    (user_input api_key : Option String) : ℝ :=
  if (active_indices.erase remove_index).sort (· ≤ ·) = [] then 0
  else
    cosine_similarity baseline_embedding
      (ge k
        (cm k
          (_build_full_prompt
            (renderIndices components ((active_indices.erase remove_index).sort (· ≤ ·)))
            user_input)
          api_key)
        api_key)

/-- Oracle round trips consumed by one `_test_removal_similarity` call
(one completion paired with one embedding counts as one round trip). -/
def testRemovalCallCount (remove_index : ℕ) (active_indices : Finset ℕ) : ℕ :=
  if (active_indices.erase remove_index).sort (· ≤ ·) = [] then 0 else 1

/-- Embedding of `_validate_prompt` at round-trip index `k`: run a prompt
through the wrapped model call, embed the output and compare to the
baseline. -/
def _validate_prompt (k : ℕ) (prompt_text : String) (baseline_embedding : List ℝ)
    (user_input api_key : Option String) : ℝ :=
  cosine_similarity baseline_embedding
    (ge k (cm k (_build_full_prompt prompt_text user_input) api_key) api_key)

/-- One iteration of the Phase-1 loop body at component index `i` on the
state (active set, round trips consumed so far in Phase 1): discard `i`
from the active set exactly when the removal similarity reaches the
threshold.  The baseline was round trip 0, so a test made after `c`
Phase-1 round trips is round trip `1 + c`. -/
def phase1Step (components : List String) (baseline : List ℝ) (t : ℝ)
    (ui ak : Option String) (st : Finset ℕ × ℕ) (i : ℕ) : Finset ℕ × ℕ :=
  (if _test_removal_similarity cm ge (1 + st.2) components i st.1 baseline ui ak ≥ t then
     st.1.erase i
   else st.1,
   st.2 + testRemovalCallCount i st.1)

/-- Phase 1 (`for i in reversed(range(len(components)))`): fold the loop
body over the reversed index range, starting from the full active set. -/
def phase1State (components : List String) (baseline : List ℝ) (t : ℝ)
    (ui ak : Option String) : Finset ℕ × ℕ :=
  ((List.range components.length).reverse).foldl
    (phase1Step cm ge components baseline t ui ak)
    (Finset.range components.length, 0)

/-- Active index set after Phase 1. -/
def phase1Active (components : List String) (baseline : List ℝ) (t : ℝ)
    (ui ak : Option String) : Finset ℕ :=
  (phase1State cm ge components baseline t ui ak).1

/-- Phase-3 greedy recovery loop over the ascending-sorted removed
indices, starting at round-trip index `k`: restore one index,
re-validate the whole candidate prompt, stop at the first similarity
reaching the threshold or when the list is exhausted.  Also returns the
number of validation round trips it consumed. -/
def phase3LoopC (components : List String) (baseline : List ℝ) (t : ℝ)
    (ui ak : Option String) : ℕ → Finset ℕ → List ℕ → Finset ℕ × ℕ
  | _, active, [] => (active, 0)
  | k, active, idx :: rest =>
    if _validate_prompt cm ge k
        (renderIndices components ((insert idx active).sort (· ≤ ·))) baseline ui ak ≥ t then
      (insert idx active, 1)
    else
      Prod.map id (· + 1)
        (phase3LoopC components baseline t ui ak (k + 1) (insert idx active) rest)

/-- Active index set produced by the Phase-3 loop. -/
def phase3Loop (components : List String) (baseline : List ℝ) (t : ℝ)
    (ui ak : Option String) (k : ℕ) (active : Finset ℕ) (l : List ℕ) : Finset ℕ :=
  (phase3LoopC cm ge components baseline t ui ak k active l).1

/-- Result assembly shared by both exits of `run_stripe_analysis`: the
redundant set is the complement of the active set, components are
classified in original order, the improved prompt falls back to the
original prompt when nothing is kept, and the score is
`round(len(redundant) / len(components), 2)`. -/
def assembleResult (components : List String) (active : Finset ℕ) (prompt : String) :
    AnalysisResult :=
  { over_engineered_score :=
      pyRound2 (((Finset.range components.length \ active).card : ℝ) / (components.length : ℝ))
    improved_prompt :=
      _build_improved_prompt
        (_classify_components components (Finset.range components.length \ active)).1 prompt
    components_removed :=
      (_classify_components components (Finset.range components.length \ active)).2
    components_kept :=
      (_classify_components components (Finset.range components.length \ active)).1
    total_components := components.length }

/-- Local `baseline_embedding` of `run_stripe_analysis`: the embedding
of the oracle's output for the full wrapped prompt, round trip 0. -/
def runBaseline (prompt : String) (ui ak : Option String) : List ℝ :=
  ge 0 (cm 0 (_build_full_prompt prompt ui) ak) ak

/-- Phase-1 outcome (local `active_indices` after Phase 1, with the
round-trip count) for one analysis run. -/
def runPhase1 (pf : String → Option ℝ) (env : Option String)
    (prompt : String) (ui ak : Option String) : Finset ℕ × ℕ :=
  phase1State cm ge (parse_components prompt) (runBaseline cm ge prompt ui ak)
    (_get_similarity_threshold pf env) ui ak

/-- Local `redundant_indices` computed after Phase 1. -/
def phase1Redundant (pf : String → Option ℝ) (env : Option String)
    (prompt : String) (ui ak : Option String) : Finset ℕ :=
  Finset.range (parse_components prompt).length \ (runPhase1 cm ge pf env prompt ui ak).1

/-- Local `improved_prompt` computed after Phase 1. -/
def runImproved1 (pf : String → Option ℝ) (env : Option String)
    (prompt : String) (ui ak : Option String) : String :=
  _build_improved_prompt
    (_classify_components (parse_components prompt)
      (phase1Redundant cm ge pf env prompt ui ak)).1 prompt

/-- Local `validation_sim` of Phase 2: validation of the Phase-1
improved prompt at the round trip following the Phase-1 tests. -/
def phase2Sim (pf : String → Option ℝ) (env : Option String)
    (prompt : String) (ui ak : Option String) : ℝ :=
  _validate_prompt cm ge (1 + (runPhase1 cm ge pf env prompt ui ak).2)
    (runImproved1 cm ge pf env prompt ui ak) (runBaseline cm ge prompt ui ak) ui ak

/-- Embedding of `run_stripe_analysis` over abstract completion and
embedding oracles `cm`/`ge` and float parser `pf`: parse, early-return on
zero components, compute the baseline embedding and threshold, run
Phase 1, validate the improved prompt, and run the Phase-3 recovery loop
exactly when validation fell below the threshold and something was
removed. -/
def run_stripe_analysis (pf : String → Option ℝ) (env : Option String)
    (prompt : String) (user_input api_key : Option String) : AnalysisResult :=
  if parse_components prompt = [] then
    { over_engineered_score := 0
      improved_prompt := prompt
      components_removed := []
      components_kept := []
      total_components := 0 }
  else if phase2Sim cm ge pf env prompt user_input api_key < _get_similarity_threshold pf env ∧
      phase1Redundant cm ge pf env prompt user_input api_key ≠ ∅ then
    assembleResult (parse_components prompt)
      (phase3Loop cm ge (parse_components prompt)
        (runBaseline cm ge prompt user_input api_key) (_get_similarity_threshold pf env)
        user_input api_key
        (2 + (runPhase1 cm ge pf env prompt user_input api_key).2)
        (runPhase1 cm ge pf env prompt user_input api_key).1
        ((phase1Redundant cm ge pf env prompt user_input api_key).sort (· ≤ ·)))
      prompt
  else
    assembleResult (parse_components prompt)
      (runPhase1 cm ge pf env prompt user_input api_key).1 prompt

/-- Total completion/embedding round-trip pairs of one analysis run:
one baseline call, the Phase-1 test calls, one Phase-2 validation call,
and the Phase-3 recovery calls when that loop runs. -/
def stripe_call_count (pf : String → Option ℝ) (env : Option String)
    (prompt : String) (user_input api_key : Option String) : ℕ :=
  if parse_components prompt = [] then 0
  else
    1 + (runPhase1 cm ge pf env prompt user_input api_key).2 + 1 +
      (if phase2Sim cm ge pf env prompt user_input api_key < _get_similarity_threshold pf env ∧
          phase1Redundant cm ge pf env prompt user_input api_key ≠ ∅ then
        (phase3LoopC cm ge (parse_components prompt)
          (runBaseline cm ge prompt user_input api_key) (_get_similarity_threshold pf env)
          user_input api_key
          (2 + (runPhase1 cm ge pf env prompt user_input api_key).2)
          (runPhase1 cm ge pf env prompt user_input api_key).1
          ((phase1Redundant cm ge pf env prompt user_input api_key).sort (· ≤ ·))).2
      else 0)

/-! Concrete oracle and parser instances used to exercise the engine on
closed inputs.  `cm0` is a completion oracle with constant output; `ge0`
embeds everything to the zero-dimensional vector, `ge1` to `[1]`, and
`ge2` answers `[0, 1]` on round trip 2 and `[1, 0]` otherwise; `pf0`
parses only the string "0". -/

def cm0 : ℕ → String → Option String → String := fun _ _ _ => ""

def ge0 : ℕ → String → Option String → List ℝ := fun _ _ _ => []

def ge1 : ℕ → String → Option String → List ℝ := fun _ _ _ => [1]

def ge2 : ℕ → String → Option String → List ℝ := fun k _ _ => if k = 2 then [0, 1] else [1, 0]

def pf0 : String → Option ℝ := fun s => if s = "0" then some 0 else none

end

/-! Helper lemmas. -/

theorem splitLinesAux_no_newline (cs acc : List Char) (h : '\n' ∉ cs) :
    splitLinesAux cs acc = [String.mk (acc.reverse ++ cs)] := by
  induction cs generalizing acc with
  | nil => simp [splitLinesAux]
  | cons c rest ih =>
    have hc : ¬(c == '\n') = true := by
      simp only [beq_iff_eq]
      intro hcc
      exact h (hcc ▸ List.mem_cons_self c rest)
    have hr : '\n' ∉ rest := fun hm => h (List.mem_cons_of_mem c hm)
    simp only [splitLinesAux, hc, if_false, Bool.false_eq_true, ih _ hr]
    simp

theorem splitLines_single (s : String) (h : '\n' ∉ s.toList) : splitLines s = [s] := by
  unfold splitLines
  rw [splitLinesAux_no_newline s.toList [] h]
  cases s
  rfl

theorem sort_eq_nil_iff (s : Finset ℕ) : s.sort (· ≤ ·) = [] ↔ s = ∅ := by
  constructor
  · intro h
    have h2 := congrArg List.length h
    rw [Finset.length_sort] at h2
    exact Finset.card_eq_zero.mp h2
  · intro h
    subst h
    exact Finset.sort_empty _

theorem filter_fst_mem_lengths (l : List (ℕ × String)) (red : Finset ℕ) :
    (l.filter (fun p => p.1 ∉ red)).length + (l.filter (fun p => p.1 ∈ red)).length
      = l.length := by
  induction l with
  | nil => rfl
  | cons x xs ih =>
    by_cases hx : x.1 ∈ red <;> simp [List.filter_cons, hx] at ih ⊢ <;> omega

theorem classify_lengths (comps : List String) (red : Finset ℕ) :
    (_classify_components comps red).1.length + (_classify_components comps red).2.length
      = comps.length := by
  unfold _classify_components
  simp only [List.length_map]
  rw [filter_fst_mem_lengths]
  exact List.enum_length

theorem classify_sublists (comps : List String) (red : Finset ℕ) :
    (_classify_components comps red).1.Sublist comps ∧
      (_classify_components comps red).2.Sublist comps := by
  unfold _classify_components
  constructor
  · have h2 := (List.filter_sublist (l := comps.enum)
      (p := fun p => decide (p.1 ∉ red))).map Prod.snd
    rw [List.enum_map_snd] at h2
    exact h2
  · have h2 := (List.filter_sublist (l := comps.enum)
      (p := fun p => decide (p.1 ∈ red))).map Prod.snd
    rw [List.enum_map_snd] at h2
    exact h2

theorem enum_filter_mem_length (comps : List String) (red : Finset ℕ) :
    (comps.enum.filter (fun p => p.1 ∈ red)).length
      = ((Finset.range comps.length).filter (· ∈ red)).card := by
  induction comps using List.reverseRecOn with
  | nil => simp
  | append_singleton xs x ih =>
    have hni : xs.length ∉ (Finset.range xs.length).filter (· ∈ red) := by simp
    rw [List.enum_append, List.filter_append, List.length_append, ih]
    simp only [List.length_append, List.length_cons, List.length_nil, Finset.range_succ,
      Finset.filter_insert]
    by_cases hx : xs.length ∈ red
    · rw [if_pos hx, Finset.card_insert_of_not_mem hni]
      simp [List.enumFrom, List.filter_cons, hx]
    · rw [if_neg hx]
      simp [List.enumFrom, List.filter_cons, hx]

theorem classify_removed_length (comps : List String) (red : Finset ℕ)
    (h : red ⊆ Finset.range comps.length) :
    (_classify_components comps red).2.length = red.card := by
  unfold _classify_components
  simp only [List.length_map]
  rw [enum_filter_mem_length]
  congr 1
  ext i
  simp only [Finset.mem_filter, Finset.mem_range]
  exact ⟨fun hi => hi.2, fun hi => ⟨Finset.mem_range.mp (h hi), hi⟩⟩

/-- C4: `parse_components` is a pure Lean function (hence deterministic)
satisfying the five specified example equations, and any newline-free
line whose stripped form matches the list-marker pattern is parsed as
exactly that single stripped component, not split at sentence
boundaries. -/
theorem C4_parse_components_cases :
    parse_components "First. Second." = ["First.", "Second."] ∧
    parse_components "" = [] ∧
    parse_components "   \n\n  " = [] ∧
    parse_components "no punctuation here" = ["no punctuation here"] ∧
    parse_components "- a. b.\n- c." = ["- a. b.", "- c."] ∧
    ∀ line : String, listMarkerRe (pyStrip line) = true → pyStrip line ≠ "" →
      '\n' ∉ line.toList → parse_components line = [pyStrip line] := by
  refine ⟨by decide, by decide, by decide, by decide, by decide, ?_⟩
  intro line hm hne hnl
  unfold parse_components
  rw [splitLines_single line hnl]
  simp [hm, hne]

/-- Witness for C4: the list-marker conjunct applied to the concrete
numeric-marker line `" 2) first. second."`. -/
theorem C4_parse_components_cases_witness :
    parse_components " 2) first. second." = [pyStrip " 2) first. second."] :=
  C4_parse_components_cases.2.2.2.2.2 " 2) first. second." (by decide) (by decide) (by decide)

/-- C9 fails on the code: `_resolve_client` uses Python truthiness, so
the empty per-call key falls back to the default client (raising the
credential-configuration error when no environment key is set), but a
whitespace-only key is truthy and is used verbatim as the credential
instead of being treated as absent. -/
theorem C9_whitespace_key_used_verbatim :
    _resolve_client (some "   ") none none = Except.ok (ResolvedClient.provided "   ") ∧
    _resolve_client (some "") none none
      = Except.error "Set OPENROUTER_API_KEY or OPENAI_API_KEY environment variable" ∧
    _resolve_client none none none
      = Except.error "Set OPENROUTER_API_KEY or OPENAI_API_KEY environment variable" ∧
    _resolve_client (some "sk-user") none none
      = Except.ok (ResolvedClient.provided "sk-user") := by
  refine ⟨rfl, rfl, rfl, rfl⟩

theorem zip_mul_comm (a b : List ℝ) :
    ((a.zip b).map (fun p => p.1 * p.2)).sum = ((b.zip a).map (fun p => p.1 * p.2)).sum := by
  rw [← List.zip_swap a b, List.map_map]
  congr 1
  apply List.map_congr_left
  intro p _
  exact mul_comm p.1 p.2

theorem zip_self_mul (v : List ℝ) :
    ((v.zip v).map (fun p => p.1 * p.2)) = v.map (fun x => x * x) := by
  induction v with
  | nil => rfl
  | cons x xs ih => simp [List.zip_cons_cons, ih]

theorem sum_sq_nonneg (v : List ℝ) : 0 ≤ ((v.map fun x => x * x)).sum := by
  apply List.sum_nonneg
  intro y hy
  obtain ⟨x, _, rfl⟩ := List.mem_map.mp hy
  exact mul_self_nonneg x

theorem sum_sq_pos (v : List ℝ) (x : ℝ) (hx : x ∈ v) (h0 : x ≠ 0) :
    0 < ((v.map fun y => y * y)).sum := by
  induction v with
  | nil => exact absurd hx (List.not_mem_nil x)
  | cons y ys ih =>
    rw [List.map_cons, List.sum_cons]
    rcases List.mem_cons.mp hx with h | h
    · subst h
      exact add_pos_of_pos_of_nonneg (mul_self_pos.mpr h0) (sum_sq_nonneg ys)
    · exact add_pos_of_nonneg_of_pos (mul_self_nonneg y) (ih h)

/-- C5: the cosine similarity equals the dot product divided by the
product of the Euclidean norms whenever both norms are nonzero, it is
symmetric in its two arguments, it equals exactly 1 on any vector with a
nonzero entry paired with itself (reflexivity is exact in the real-number
model of floats), and it returns exactly 0 whenever either argument has
zero norm, in particular when one argument is a zero vector. -/
theorem C5_cosine_similarity_props :
    (∀ a b : List ℝ,
      Real.sqrt ((a.map fun x => x * x)).sum ≠ 0 →
      Real.sqrt ((b.map fun x => x * x)).sum ≠ 0 →
      cosine_similarity a b =
        ((a.zip b).map (fun p => p.1 * p.2)).sum /
          (Real.sqrt ((a.map fun x => x * x)).sum * Real.sqrt ((b.map fun x => x * x)).sum)) ∧
    (∀ a b : List ℝ, cosine_similarity a b = cosine_similarity b a) ∧
    (∀ v : List ℝ, (∃ x ∈ v, x ≠ 0) → cosine_similarity v v = 1) ∧
    (∀ a b : List ℝ,
      Real.sqrt ((a.map fun x => x * x)).sum = 0 ∨
        Real.sqrt ((b.map fun x => x * x)).sum = 0 →
      cosine_similarity a b = 0) ∧
    (∀ (n : ℕ) (b : List ℝ), cosine_similarity (List.replicate n 0) b = 0) := by
  refine ⟨?_, ?_, ?_, ?_, ?_⟩
  · intro a b ha hb
    unfold cosine_similarity
    rw [if_neg]
    push_neg
    exact ⟨ha, hb⟩
  · intro a b
    unfold cosine_similarity
    rw [zip_mul_comm]
    exact if_congr or_comm rfl (by rw [mul_comm])
  · intro v ⟨x, hx, h0⟩
    have hS : 0 < ((v.map fun y => y * y)).sum := sum_sq_pos v x hx h0
    unfold cosine_similarity
    rw [if_neg]
    · rw [zip_self_mul, Real.mul_self_sqrt hS.le]
      exact div_self hS.ne'
    · push_neg
      have h := Real.sqrt_ne_zero'.mpr hS
      exact ⟨h, h⟩
  · intro a b h
    unfold cosine_similarity
    exact if_pos h
  · intro n b
    unfold cosine_similarity
    rw [if_pos]
    left
    have h : ((List.replicate n (0 : ℝ)).map fun x => x * x) = List.replicate n 0 := by
      rw [List.map_replicate, mul_zero]
    rw [h, List.sum_replicate, smul_zero, Real.sqrt_zero]

/-- Witness for C5: the reflexivity and formula conjuncts evaluated at
the one-dimensional vector `[1]`, and the zero-norm conjunct at the zero
vector. -/
theorem C5_cosine_similarity_props_witness :
    cosine_similarity [(1 : ℝ)] [(1 : ℝ)] = 1 ∧
    cosine_similarity [(0 : ℝ)] [(1 : ℝ)] = 0 := by
  constructor
  · exact C5_cosine_similarity_props.2.2.1 [(1 : ℝ)] ⟨1, List.mem_singleton_self 1, one_ne_zero⟩
  · exact C5_cosine_similarity_props.2.2.2.2 1 [(1 : ℝ)]

/-- C7: for every float-parsing behaviour and every environment value,
the resolved similarity threshold lies in `[0, 1]`; an unparseable value
falls back to the default 0.92; a parseable value is clamped into
`[0, 1]`; and an absent environment value resolves to the default 0.92
(the default string "0.92" parses to 0.92).  The threshold is resolved
once per run by construction of `run_stripe_analysis`. -/
theorem C7_threshold_resolution (pf : String → Option ℝ) (env : Option String) :
    (0 ≤ _get_similarity_threshold pf env ∧ _get_similarity_threshold pf env ≤ 1) ∧
    (∀ raw, env = some raw → pf raw = none →
      _get_similarity_threshold pf env = DEFAULT_SIMILARITY_THRESHOLD) ∧
    (∀ raw v, env = some raw → pf raw = some v →
      _get_similarity_threshold pf env = max 0 (min 1 v)) ∧
    (env = none → pf "0.92" = some DEFAULT_SIMILARITY_THRESHOLD →
      _get_similarity_threshold pf env = DEFAULT_SIMILARITY_THRESHOLD) := by
  refine ⟨?_, ?_, ?_, ?_⟩
  · unfold _get_similarity_threshold
    cases hp : pf (env.getD "0.92") with
    | none =>
      simp only [hp]
      unfold DEFAULT_SIMILARITY_THRESHOLD
      constructor <;> norm_num
    | some v =>
      simp only [hp]
      constructor
      · exact le_max_left 0 _
      · rw [max_le_iff]
        exact ⟨zero_le_one, min_le_left 1 v⟩
  · intro raw henv hp
    subst henv
    unfold _get_similarity_threshold
    simp [hp]
  · intro raw v henv hp
    subst henv
    unfold _get_similarity_threshold
    simp [hp]
  · intro henv hp
    subst henv
    unfold _get_similarity_threshold
    simp only [Option.getD_none, hp]
    unfold DEFAULT_SIMILARITY_THRESHOLD
    norm_num

/-- Witness for C7: concrete parse failure, concrete clamping of the
out-of-range value 2 down into `[0, 1]`, and the default when the
environment variable is absent. -/
theorem C7_threshold_resolution_witness :
    _get_similarity_threshold pf0 (some "abc") = DEFAULT_SIMILARITY_THRESHOLD ∧
    _get_similarity_threshold (fun _ => some 2) (some "2") = max 0 (min 1 2) ∧
    _get_similarity_threshold (fun _ => some DEFAULT_SIMILARITY_THRESHOLD) none
      = DEFAULT_SIMILARITY_THRESHOLD ∧
    0 ≤ _get_similarity_threshold pf0 (some "0") ∧
    _get_similarity_threshold pf0 (some "0") ≤ 1 := by
  refine ⟨?_, ?_, ?_, ?_, ?_⟩
  · exact (C7_threshold_resolution pf0 (some "abc")).2.1 "abc" rfl (by decide)
  · exact (C7_threshold_resolution (fun _ => some 2) (some "2")).2.2.1 "2" 2 rfl rfl
  · exact (C7_threshold_resolution (fun _ => some DEFAULT_SIMILARITY_THRESHOLD) none).2.2.2
      rfl rfl
  · exact (C7_threshold_resolution pf0 (some "0")).1.1
  · exact (C7_threshold_resolution pf0 (some "0")).1.2

theorem pyRound2_zero : pyRound2 0 = 0 := by
  unfold pyRound2 pyRound
  norm_num

theorem pyRound2_one : pyRound2 1 = 1 := by
  unfold pyRound2 pyRound
  norm_num

theorem assembleResult_spec (comps : List String) (active : Finset ℕ) (prompt : String) :
    (assembleResult comps active prompt).total_components
      = (assembleResult comps active prompt).components_kept.length
        + (assembleResult comps active prompt).components_removed.length ∧
    (assembleResult comps active prompt).over_engineered_score
      = pyRound2 (((assembleResult comps active prompt).components_removed.length : ℝ)
          / ((assembleResult comps active prompt).total_components : ℝ)) ∧
    ((assembleResult comps active prompt).components_kept = [] →
      (assembleResult comps active prompt).improved_prompt = prompt) := by
  refine ⟨?_, ?_, ?_⟩
  · exact (classify_lengths comps (Finset.range comps.length \ active)).symm
  · dsimp only [assembleResult]
    rw [classify_removed_length comps (Finset.range comps.length \ active) Finset.sdiff_subset]
  · intro h
    show _build_improved_prompt _ prompt = prompt
    have h2 : (_classify_components comps (Finset.range comps.length \ active)).1 = [] := h
    rw [h2]
    simp [_build_improved_prompt]

theorem run_eq_zero (cm : ℕ → String → Option String → String)
    (ge : ℕ → String → Option String → List ℝ) (pf : String → Option ℝ)
    (env : Option String) (prompt : String) (ui ak : Option String)
    (hp : parse_components prompt = []) :
    run_stripe_analysis cm ge pf env prompt ui ak
      = ⟨0, prompt, [], [], 0⟩ := by
  unfold run_stripe_analysis
  rw [if_pos hp]

theorem run_eq_else (cm : ℕ → String → Option String → String)
    (ge : ℕ → String → Option String → List ℝ) (pf : String → Option ℝ)
    (env : Option String) (prompt : String) (ui ak : Option String)
    (hp : parse_components prompt ≠ [])
    (hc : ¬(phase2Sim cm ge pf env prompt ui ak < _get_similarity_threshold pf env ∧
        phase1Redundant cm ge pf env prompt ui ak ≠ ∅)) :
    run_stripe_analysis cm ge pf env prompt ui ak
      = assembleResult (parse_components prompt)
          (runPhase1 cm ge pf env prompt ui ak).1 prompt := by
  unfold run_stripe_analysis
  rw [if_neg hp, if_neg hc]

theorem run_eq_then (cm : ℕ → String → Option String → String)
    (ge : ℕ → String → Option String → List ℝ) (pf : String → Option ℝ)
    (env : Option String) (prompt : String) (ui ak : Option String)
    (hp : parse_components prompt ≠ [])
    (hc : phase2Sim cm ge pf env prompt ui ak < _get_similarity_threshold pf env ∧
        phase1Redundant cm ge pf env prompt ui ak ≠ ∅) :
    run_stripe_analysis cm ge pf env prompt ui ak
      = assembleResult (parse_components prompt)
          (phase3Loop cm ge (parse_components prompt)
            (runBaseline cm ge prompt ui ak) (_get_similarity_threshold pf env) ui ak
            (2 + (runPhase1 cm ge pf env prompt ui ak).2)
            (runPhase1 cm ge pf env prompt ui ak).1
            ((phase1Redundant cm ge pf env prompt ui ak).sort (· ≤ ·)))
          prompt := by
  unfold run_stripe_analysis
  rw [if_neg hp, if_pos hc]

section EngineLemmas

variable (cm : ℕ → String → Option String → String)
variable (ge : ℕ → String → Option String → List ℝ)
variable (comps : List String) (baseline : List ℝ) (t : ℝ) (ui ak : Option String)

theorem phase1Step_fst_subset (st : Finset ℕ × ℕ) (i : ℕ) :
    (phase1Step cm ge comps baseline t ui ak st i).1 ⊆ st.1 := by
  unfold phase1Step
  dsimp only
  split
  · exact Finset.erase_subset i st.1
  · exact subset_rfl

theorem phase1_foldl_subset (l : List ℕ) (st : Finset ℕ × ℕ) :
    (l.foldl (phase1Step cm ge comps baseline t ui ak) st).1 ⊆ st.1 := by
  induction l generalizing st with
  | nil => exact subset_rfl
  | cons i l ih =>
    rw [List.foldl_cons]
    exact (ih _).trans (phase1Step_fst_subset cm ge comps baseline t ui ak st i)

theorem phase1State_fst_subset :
    (phase1State cm ge comps baseline t ui ak).1 ⊆ Finset.range comps.length := by
  unfold phase1State
  exact phase1_foldl_subset cm ge comps baseline t ui ak _ _

theorem phase1Step_fst_nonempty (ht : 0 < t) (st : Finset ℕ × ℕ) (i : ℕ)
    (h : st.1 ≠ ∅) : (phase1Step cm ge comps baseline t ui ak st i).1 ≠ ∅ := by
  unfold phase1Step
  dsimp only
  split
  · intro hemp
    rename_i h2
    have hs : (st.1.erase i).sort (· ≤ ·) = [] := by
      rw [hemp]
      exact Finset.sort_empty _
    have h0 : _test_removal_similarity cm ge (1 + st.2) comps i st.1 baseline ui ak = 0 := by
      unfold _test_removal_similarity
      rw [if_pos hs]
    rw [h0] at h2
    exact absurd h2 (not_le.mpr ht)
  · exact h

theorem phase1_foldl_nonempty (ht : 0 < t) (l : List ℕ) (st : Finset ℕ × ℕ)
    (h : st.1 ≠ ∅) :
    (l.foldl (phase1Step cm ge comps baseline t ui ak) st).1 ≠ ∅ := by
  induction l generalizing st with
  | nil => exact h
  | cons i l ih =>
    rw [List.foldl_cons]
    exact ih _ (phase1Step_fst_nonempty cm ge comps baseline t ui ak ht st i h)

theorem phase1State_fst_nonempty (ht : 0 < t) (hc : comps ≠ []) :
    (phase1State cm ge comps baseline t ui ak).1 ≠ ∅ := by
  unfold phase1State
  apply phase1_foldl_nonempty cm ge comps baseline t ui ak ht
  dsimp only
  rw [← Finset.nonempty_iff_ne_empty, Finset.nonempty_range_iff]
  intro h0
  exact hc (List.length_eq_zero.mp h0)

theorem testRemovalCallCount_le_one (i : ℕ) (s : Finset ℕ) :
    testRemovalCallCount i s ≤ 1 := by
  unfold testRemovalCallCount
  split <;> omega

theorem phase1_foldl_count (l : List ℕ) (st : Finset ℕ × ℕ) :
    (l.foldl (phase1Step cm ge comps baseline t ui ak) st).2 ≤ st.2 + l.length := by
  induction l generalizing st with
  | nil => simp
  | cons i l ih =>
    rw [List.foldl_cons]
    have h1 := ih (phase1Step cm ge comps baseline t ui ak st i)
    have h2 : (phase1Step cm ge comps baseline t ui ak st i).2
        = st.2 + testRemovalCallCount i st.1 := rfl
    have h3 := testRemovalCallCount_le_one i st.1
    rw [h2] at h1
    simp only [List.length_cons]
    omega

theorem phase1State_count_le :
    (phase1State cm ge comps baseline t ui ak).2 ≤ comps.length := by
  unfold phase1State
  have h := phase1_foldl_count cm ge comps baseline t ui ak
    (List.range comps.length).reverse (Finset.range comps.length, 0)
  simpa using h

theorem phase3Loop_superset (k : ℕ) (active : Finset ℕ) (l : List ℕ) :
    active ⊆ phase3Loop cm ge comps baseline t ui ak k active l := by
  induction l generalizing k active with
  | nil => exact subset_rfl
  | cons idx rest ih =>
    unfold phase3Loop phase3LoopC
    split
    · exact Finset.subset_insert idx active
    · dsimp only [Prod.map_fst, id]
      exact (Finset.subset_insert idx active).trans (ih (k + 1) (insert idx active))

theorem phase3Loop_subset (l : List ℕ) :
    ∀ (k : ℕ) (active : Finset ℕ),
      (∀ x ∈ l, x ∈ Finset.range comps.length) →
      active ⊆ Finset.range comps.length →
      phase3Loop cm ge comps baseline t ui ak k active l ⊆ Finset.range comps.length := by
  induction l with
  | nil => intro k active _ ha; exact ha
  | cons idx rest ih =>
    intro k active hl ha
    have hidx : idx ∈ Finset.range comps.length := hl idx (List.mem_cons_self idx rest)
    have hins : insert idx active ⊆ Finset.range comps.length :=
      Finset.insert_subset_iff.mpr ⟨hidx, ha⟩
    unfold phase3Loop phase3LoopC
    split
    · exact hins
    · dsimp only [Prod.map_fst, id]
      exact ih (k + 1) (insert idx active)
        (fun x hx => hl x (List.mem_cons_of_mem idx hx)) hins

theorem phase3LoopC_count_le (k : ℕ) (active : Finset ℕ) (l : List ℕ) :
    (phase3LoopC cm ge comps baseline t ui ak k active l).2 ≤ l.length := by
  induction l generalizing k active with
  | nil => simp [phase3LoopC]
  | cons idx rest ih =>
    unfold phase3LoopC
    split
    · simp
    · dsimp only [Prod.map_snd]
      have h := ih (k + 1) (insert idx active)
      simp only [List.length_cons]
      omega

theorem phase3Loop_first_success (k : ℕ) (active : Finset ℕ) (idx : ℕ) (rest : List ℕ)
    (h : _validate_prompt cm ge k
        (renderIndices comps ((insert idx active).sort (· ≤ ·))) baseline ui ak ≥ t) :
    phase3Loop cm ge comps baseline t ui ak k active (idx :: rest) = insert idx active := by
  unfold phase3Loop phase3LoopC
  rw [if_pos h]

theorem phase3Loop_exhaust (k : ℕ) (active : Finset ℕ) (l : List ℕ)
    (h : ∀ (j : ℕ) (s : Finset ℕ),
      _validate_prompt cm ge j (renderIndices comps (s.sort (· ≤ ·))) baseline ui ak < t) :
    phase3Loop cm ge comps baseline t ui ak k active l = active ∪ l.toFinset := by
  induction l generalizing k active with
  | nil => simp [phase3Loop, phase3LoopC]
  | cons idx rest ih =>
    unfold phase3Loop phase3LoopC
    rw [if_neg (not_le.mpr (h k (insert idx active)))]
    dsimp only [Prod.map_fst, id]
    have h2 := ih (k + 1) (insert idx active)
    unfold phase3Loop at h2
    rw [h2, List.toFinset_cons, Finset.insert_union, Finset.union_insert]

end EngineLemmas

/-- C1: result assembly of `run_stripe_analysis` — the component count
always equals kept plus removed; the score is always the two-decimal
rounding of removed over total; a prompt parsing to zero components
yields score 0, zero components, empty lists and the original prompt;
and whenever nothing is kept the improved prompt is the original prompt
verbatim. -/
theorem C1_result_assembly (cm : ℕ → String → Option String → String)
    (ge : ℕ → String → Option String → List ℝ) (pf : String → Option ℝ)
    (env : Option String) (prompt : String) (ui ak : Option String) :
    (run_stripe_analysis cm ge pf env prompt ui ak).total_components
      = (run_stripe_analysis cm ge pf env prompt ui ak).components_kept.length
        + (run_stripe_analysis cm ge pf env prompt ui ak).components_removed.length ∧
    (run_stripe_analysis cm ge pf env prompt ui ak).over_engineered_score
      = pyRound2
          (((run_stripe_analysis cm ge pf env prompt ui ak).components_removed.length : ℝ)
            / ((run_stripe_analysis cm ge pf env prompt ui ak).total_components : ℝ)) ∧
    (parse_components prompt = [] →
      (run_stripe_analysis cm ge pf env prompt ui ak).over_engineered_score = 0 ∧
      (run_stripe_analysis cm ge pf env prompt ui ak).total_components = 0 ∧
      (run_stripe_analysis cm ge pf env prompt ui ak).components_kept = [] ∧
      (run_stripe_analysis cm ge pf env prompt ui ak).components_removed = [] ∧
      (run_stripe_analysis cm ge pf env prompt ui ak).improved_prompt = prompt) ∧
    ((run_stripe_analysis cm ge pf env prompt ui ak).components_kept = [] →
      (run_stripe_analysis cm ge pf env prompt ui ak).improved_prompt = prompt) := by
  by_cases hp : parse_components prompt = []
  · rw [run_eq_zero cm ge pf env prompt ui ak hp]
    refine ⟨rfl, ?_, fun _ => ⟨rfl, rfl, rfl, rfl, rfl⟩, fun _ => rfl⟩
    simp [pyRound2_zero]
  · have hspec := fun active => assembleResult_spec (parse_components prompt) active prompt
    by_cases hc : phase2Sim cm ge pf env prompt ui ak < _get_similarity_threshold pf env ∧
        phase1Redundant cm ge pf env prompt ui ak ≠ ∅
    · rw [run_eq_then cm ge pf env prompt ui ak hp hc]
      exact ⟨(hspec _).1, (hspec _).2.1, fun h => absurd h hp, (hspec _).2.2⟩
    · rw [run_eq_else cm ge pf env prompt ui ak hp hc]
      exact ⟨(hspec _).1, (hspec _).2.1, fun h => absurd h hp, (hspec _).2.2⟩

/-- Witness for C1: the zero-component conjunct at the empty prompt, and
through it the empty-kept conjunct. -/
theorem C1_result_assembly_witness :
    (run_stripe_analysis cm0 ge0 pf0 none "" none none).improved_prompt = "" ∧
    (run_stripe_analysis cm0 ge0 pf0 none "" none none).over_engineered_score = 0 ∧
    (run_stripe_analysis cm0 ge0 pf0 none "" none none).total_components = 0 := by
  have h := C1_result_assembly cm0 ge0 pf0 none "" none none
  have h3 := h.2.2.1 (by decide)
  exact ⟨h.2.2.2 h3.2.2.1, h3.1, h3.2.1⟩

/-- C6: the Phase-1 active set always stays inside the full index range
and each Phase-1 step only shrinks it; the Phase-3 loop only grows the
active set and keeps it inside the index range; and the final kept and
removed lists are sublists of the parsed component sequence, i.e. they
follow ascending original index order, never removal or restoration
order. -/
theorem C6_active_set_invariants :
    (∀ (cm : ℕ → String → Option String → String)
        (ge : ℕ → String → Option String → List ℝ)
        (comps : List String) (baseline : List ℝ) (t : ℝ) (ui ak : Option String),
      (phase1State cm ge comps baseline t ui ak).1 ⊆ Finset.range comps.length) ∧
    (∀ (cm : ℕ → String → Option String → String)
        (ge : ℕ → String → Option String → List ℝ)
        (comps : List String) (baseline : List ℝ) (t : ℝ) (ui ak : Option String)
        (st : Finset ℕ × ℕ) (i : ℕ),
      (phase1Step cm ge comps baseline t ui ak st i).1 ⊆ st.1) ∧
    (∀ (cm : ℕ → String → Option String → String)
        (ge : ℕ → String → Option String → List ℝ)
        (comps : List String) (baseline : List ℝ) (t : ℝ) (ui ak : Option String)
        (k : ℕ) (active : Finset ℕ) (l : List ℕ),
      active ⊆ phase3Loop cm ge comps baseline t ui ak k active l) ∧
    (∀ (cm : ℕ → String → Option String → String)
        (ge : ℕ → String → Option String → List ℝ)
        (comps : List String) (baseline : List ℝ) (t : ℝ) (ui ak : Option String)
        (l : List ℕ) (k : ℕ) (active : Finset ℕ),
      (∀ x ∈ l, x ∈ Finset.range comps.length) →
      active ⊆ Finset.range comps.length →
      phase3Loop cm ge comps baseline t ui ak k active l ⊆ Finset.range comps.length) ∧
    (∀ (cm : ℕ → String → Option String → String)
        (ge : ℕ → String → Option String → List ℝ) (pf : String → Option ℝ)
        (env : Option String) (prompt : String) (ui ak : Option String),
      (run_stripe_analysis cm ge pf env prompt ui ak).components_kept.Sublist
          (parse_components prompt) ∧
      (run_stripe_analysis cm ge pf env prompt ui ak).components_removed.Sublist
          (parse_components prompt)) := by
  refine ⟨phase1State_fst_subset, phase1Step_fst_subset, phase3Loop_superset,
    phase3Loop_subset, ?_⟩
  intro cm ge pf env prompt ui ak
  by_cases hp : parse_components prompt = []
  · rw [run_eq_zero cm ge pf env prompt ui ak hp]
    exact ⟨List.nil_sublist _, List.nil_sublist _⟩
  · by_cases hc : phase2Sim cm ge pf env prompt ui ak < _get_similarity_threshold pf env ∧
        phase1Redundant cm ge pf env prompt ui ak ≠ ∅
    · rw [run_eq_then cm ge pf env prompt ui ak hp hc]
      exact classify_sublists _ _
    · rw [run_eq_else cm ge pf env prompt ui ak hp hc]
      exact classify_sublists _ _

/-- Witness for C6: the range-preservation conjunct of the Phase-3 loop
applied at a concrete loop run. -/
theorem C6_active_set_invariants_witness :
    phase3Loop cm0 ge0 ["Hi"] ([] : List ℝ) 1 none none 0 ∅ [0]
      ⊆ Finset.range (["Hi"] : List String).length :=
  C6_active_set_invariants.2.2.2.1 cm0 ge0 ["Hi"] [] 1 none none [0] 0 ∅
    (by decide) (Finset.empty_subset _)

/-- C8: for every prompt with at least one parsed component and every
oracle behaviour, the analysis makes at most `2N + 2` oracle round trips
(the embedding is a total function, so the run always terminates): one
baseline call, at most `N` Phase-1 tests (empty-candidate tests are
skipped), one Phase-2 validation, and at most one Phase-3 call per
Phase-1-removed component. -/
theorem C8_call_bound :
    (∀ (cm : ℕ → String → Option String → String)
        (ge : ℕ → String → Option String → List ℝ) (pf : String → Option ℝ)
        (env : Option String) (prompt : String) (ui ak : Option String),
      parse_components prompt ≠ [] →
      stripe_call_count cm ge pf env prompt ui ak
        ≤ 2 * (parse_components prompt).length + 2) ∧
    (∀ (cm : ℕ → String → Option String → String)
        (ge : ℕ → String → Option String → List ℝ)
        (comps : List String) (baseline : List ℝ) (t : ℝ) (ui ak : Option String),
      (phase1State cm ge comps baseline t ui ak).2 ≤ comps.length) ∧
    (∀ (cm : ℕ → String → Option String → String)
        (ge : ℕ → String → Option String → List ℝ)
        (comps : List String) (baseline : List ℝ) (t : ℝ) (ui ak : Option String)
        (k : ℕ) (active : Finset ℕ) (l : List ℕ),
      (phase3LoopC cm ge comps baseline t ui ak k active l).2 ≤ l.length) := by
  refine ⟨?_, phase1State_count_le, phase3LoopC_count_le⟩
  intro cm ge pf env prompt ui ak h
  unfold stripe_call_count
  rw [if_neg h]
  have h1 : (runPhase1 cm ge pf env prompt ui ak).2 ≤ (parse_components prompt).length :=
    phase1State_count_le cm ge (parse_components prompt)
      (runBaseline cm ge prompt ui ak) (_get_similarity_threshold pf env) ui ak
  have h2 :
      (if phase2Sim cm ge pf env prompt ui ak < _get_similarity_threshold pf env ∧
          phase1Redundant cm ge pf env prompt ui ak ≠ ∅ then
        (phase3LoopC cm ge (parse_components prompt)
          (runBaseline cm ge prompt ui ak) (_get_similarity_threshold pf env) ui ak
          (2 + (runPhase1 cm ge pf env prompt ui ak).2)
          (runPhase1 cm ge pf env prompt ui ak).1
          ((phase1Redundant cm ge pf env prompt ui ak).sort (· ≤ ·))).2
      else 0) ≤ (parse_components prompt).length := by
    split
    · have h3 := phase3LoopC_count_le cm ge (parse_components prompt)
        (runBaseline cm ge prompt ui ak) (_get_similarity_threshold pf env) ui ak
        (2 + (runPhase1 cm ge pf env prompt ui ak).2)
        (runPhase1 cm ge pf env prompt ui ak).1
        ((phase1Redundant cm ge pf env prompt ui ak).sort (· ≤ ·))
      have h4 : ((phase1Redundant cm ge pf env prompt ui ak).sort (· ≤ ·)).length
          = (phase1Redundant cm ge pf env prompt ui ak).card := Finset.length_sort _
      have h5 : (phase1Redundant cm ge pf env prompt ui ak).card
          ≤ (parse_components prompt).length := by
        have h6 : phase1Redundant cm ge pf env prompt ui ak
            ⊆ Finset.range (parse_components prompt).length := Finset.sdiff_subset
        have h7 := Finset.card_le_card h6
        simpa [Finset.card_range] using h7
      omega
    · omega
  omega

/-- Witness for C8: the bound applied to a one-component prompt with
trivial oracles. -/
theorem C8_call_bound_witness :
    stripe_call_count cm0 ge0 pf0 none "Hi" none none
      ≤ 2 * (parse_components "Hi").length + 2 :=
  C8_call_bound.1 cm0 ge0 pf0 none "Hi" none none (by decide)

theorem assembleResult_kept_ne_nil (comps : List String) (active : Finset ℕ)
    (prompt : String) (ha : active ⊆ Finset.range comps.length) (hne : active ≠ ∅) :
    (assembleResult comps active prompt).components_kept ≠ [] := by
  intro hk
  have hk1 : (_classify_components comps (Finset.range comps.length \ active)).1.length = 0 := by
    have hk0 : (_classify_components comps (Finset.range comps.length \ active)).1 = [] := hk
    rw [hk0]
    rfl
  have hlen := classify_lengths comps (Finset.range comps.length \ active)
  have hrem := classify_removed_length comps (Finset.range comps.length \ active)
    Finset.sdiff_subset
  have hcard : (Finset.range comps.length \ active).card = comps.length - active.card := by
    rw [Finset.card_sdiff ha, Finset.card_range]
  have hle : active.card ≤ comps.length := by
    have h := Finset.card_le_card ha
    simpa [Finset.card_range] using h
  have hpos : 0 < active.card := Finset.card_pos.mpr (Finset.nonempty_iff_ne_empty.mpr hne)
  omega

/-- Amended C2: when removing the tested component would leave the
candidate set empty, no oracle round trip happens and the similarity is
the defined 0.0; consequently the removal is rejected, and the final
kept list is non-empty, for every resolved threshold strictly greater
than zero.  (At the resolved threshold 0.0 — reachable via the
environment override — the inclusive `>=` comparison accepts the 0.0
similarity and the last component is removed.) -/
theorem C2_empty_candidate_amended :
    (∀ (cm : ℕ → String → Option String → String)
        (ge : ℕ → String → Option String → List ℝ) (k : ℕ) (comps : List String)
        (i : ℕ) (active : Finset ℕ) (baseline : List ℝ) (ui ak : Option String),
      (active.erase i).sort (· ≤ ·) = [] →
      _test_removal_similarity cm ge k comps i active baseline ui ak = 0 ∧
      testRemovalCallCount i active = 0) ∧
    (∀ (cm : ℕ → String → Option String → String)
        (ge : ℕ → String → Option String → List ℝ)
        (comps : List String) (baseline : List ℝ) (t : ℝ) (ui ak : Option String),
      0 < t → comps ≠ [] → (phase1State cm ge comps baseline t ui ak).1 ≠ ∅) ∧
    (∀ (cm : ℕ → String → Option String → String)
        (ge : ℕ → String → Option String → List ℝ) (pf : String → Option ℝ)
        (env : Option String) (prompt : String) (ui ak : Option String),
      0 < _get_similarity_threshold pf env → parse_components prompt ≠ [] →
      (run_stripe_analysis cm ge pf env prompt ui ak).components_kept ≠ []) := by
  refine ⟨?_, phase1State_fst_nonempty, ?_⟩
  · intro cm ge k comps i active baseline ui ak h
    constructor
    · unfold _test_removal_similarity
      rw [if_pos h]
    · unfold testRemovalCallCount
      rw [if_pos h]
  · intro cm ge pf env prompt ui ak ht hp
    have hactive1 : (runPhase1 cm ge pf env prompt ui ak).1 ≠ ∅ :=
      phase1State_fst_nonempty cm ge (parse_components prompt)
        (runBaseline cm ge prompt ui ak) (_get_similarity_threshold pf env) ui ak ht hp
    have hsub1 : (runPhase1 cm ge pf env prompt ui ak).1
        ⊆ Finset.range (parse_components prompt).length :=
      phase1State_fst_subset cm ge (parse_components prompt)
        (runBaseline cm ge prompt ui ak) (_get_similarity_threshold pf env) ui ak
    by_cases hc : phase2Sim cm ge pf env prompt ui ak < _get_similarity_threshold pf env ∧
        phase1Redundant cm ge pf env prompt ui ak ≠ ∅
    · rw [run_eq_then cm ge pf env prompt ui ak hp hc]
      apply assembleResult_kept_ne_nil
      · apply phase3Loop_subset
        · intro x hx
          have hx2 : x ∈ phase1Redundant cm ge pf env prompt ui ak :=
            (Finset.mem_sort _).mp hx
          exact Finset.mem_sdiff.mp hx2 |>.1
        · exact hsub1
      · intro h0
        apply hactive1
        have hsup := phase3Loop_superset cm ge (parse_components prompt)
          (runBaseline cm ge prompt ui ak) (_get_similarity_threshold pf env) ui ak
          (2 + (runPhase1 cm ge pf env prompt ui ak).2)
          (runPhase1 cm ge pf env prompt ui ak).1
          ((phase1Redundant cm ge pf env prompt ui ak).sort (· ≤ ·))
        rw [h0] at hsup
        exact Finset.subset_empty.mp hsup
    · rw [run_eq_else cm ge pf env prompt ui ak hp hc]
      exact assembleResult_kept_ne_nil _ _ _ hsub1 hactive1

theorem cosine_nil_left (b : List ℝ) : cosine_similarity [] b = 0 := by
  simp [cosine_similarity]

theorem test_baseline_nil (cm : ℕ → String → Option String → String)
    (ge : ℕ → String → Option String → List ℝ) (k : ℕ) (comps : List String)
    (i : ℕ) (act : Finset ℕ) (ui ak : Option String) :
    _test_removal_similarity cm ge k comps i act [] ui ak = 0 := by
  unfold _test_removal_similarity
  split
  · rfl
  · exact cosine_nil_left _

theorem validate_baseline_nil (cm : ℕ → String → Option String → String)
    (ge : ℕ → String → Option String → List ℝ) (k : ℕ) (p : String)
    (ui ak : Option String) : _validate_prompt cm ge k p [] ui ak = 0 :=
  cosine_nil_left _

theorem thresh_pf0_zero : _get_similarity_threshold pf0 (some "0") = 0 := by
  simp [_get_similarity_threshold, pf0]

theorem thresh_pf0_default :
    _get_similarity_threshold pf0 none = DEFAULT_SIMILARITY_THRESHOLD := by
  simp [_get_similarity_threshold, pf0]

theorem phase1_eval_zero_threshold :
    phase1State cm0 ge0 ["Hi"] ([] : List ℝ) 0 none none = (∅, 0) := by
  unfold phase1State
  have hr : (List.range (["Hi"] : List String).length).reverse = [0] := by decide
  rw [hr, List.foldl_cons, List.foldl_nil]
  unfold phase1Step testRemovalCallCount
  rw [test_baseline_nil, if_pos (le_refl (0 : ℝ))]
  have he : ((Finset.range (["Hi"] : List String).length, 0).1).erase 0 = ∅ := by decide
  rw [he, Finset.sort_empty]
  simp

theorem runPhase1_eval_zero_threshold :
    runPhase1 cm0 ge0 pf0 (some "0") "Hi" none none = (∅, 0) := by
  unfold runPhase1
  rw [thresh_pf0_zero, show parse_components "Hi" = ["Hi"] from by decide,
    show runBaseline cm0 ge0 "Hi" none none = ([] : List ℝ) from rfl]
  exact phase1_eval_zero_threshold

theorem phase2Sim_eval_zero_threshold :
    phase2Sim cm0 ge0 pf0 (some "0") "Hi" none none = 0 := by
  unfold phase2Sim
  rw [show runBaseline cm0 ge0 "Hi" none none = ([] : List ℝ) from rfl]
  exact validate_baseline_nil cm0 ge0 _ _ none none

theorem run_eval_zero_threshold :
    run_stripe_analysis cm0 ge0 pf0 (some "0") "Hi" none none
      = assembleResult ["Hi"] ∅ "Hi" := by
  rw [run_eq_else cm0 ge0 pf0 (some "0") "Hi" none none (by decide) ?hc]
  case hc =>
    intro hcontra
    have h1 := hcontra.1
    rw [phase2Sim_eval_zero_threshold, thresh_pf0_zero] at h1
    exact lt_irrefl 0 h1
  rw [show parse_components "Hi" = ["Hi"] from by decide, runPhase1_eval_zero_threshold]

/-- Counterexample to C2 as stated: with the environment override "0"
the resolved threshold is 0.0, the empty-candidate similarity 0.0
satisfies the inclusive comparison, and the single remaining component
IS classified redundant — the removal is accepted. -/
theorem C2_empty_candidate_counterexample :
    _get_similarity_threshold pf0 (some "0") = 0 ∧
    (run_stripe_analysis cm0 ge0 pf0 (some "0") "Hi" none none).components_removed
      = ["Hi"] ∧
    (run_stripe_analysis cm0 ge0 pf0 (some "0") "Hi" none none).components_kept = [] := by
  refine ⟨thresh_pf0_zero, ?_, ?_⟩ <;> rw [run_eval_zero_threshold] <;> decide

/-- Witness for the amended C2: the no-call conjunct at a concrete
one-element active set, and the kept-nonempty conjunct at the default
threshold 0.92. -/
theorem C2_empty_candidate_amended_witness :
    _test_removal_similarity cm0 ge0 1 ["Hi"] 0 {0} ([] : List ℝ) none none = 0 ∧
    testRemovalCallCount 0 ({0} : Finset ℕ) = 0 ∧
    (run_stripe_analysis cm0 ge0 pf0 none "Hi" none none).components_kept ≠ [] := by
  have h1 := C2_empty_candidate_amended.1 cm0 ge0 1 ["Hi"] 0 {0} [] none none
    (by rw [show ({0} : Finset ℕ).erase 0 = ∅ from by decide]; exact Finset.sort_empty _)
  have h3 := C2_empty_candidate_amended.2.2 cm0 ge0 pf0 none "Hi" none none
    (by rw [thresh_pf0_default]; unfold DEFAULT_SIMILARITY_THRESHOLD; norm_num)
    (by decide)
  exact ⟨h1.1, h1.2, h3⟩

theorem cosine_1010 : cosine_similarity [1, 0] [1, 0] = 1 := by
  unfold cosine_similarity
  norm_num

theorem cosine_1001 : cosine_similarity [1, 0] [0, 1] = 0 := by
  unfold cosine_similarity
  norm_num

theorem cosine_one_one : cosine_similarity [1] [1] = 1 := by
  unfold cosine_similarity
  norm_num

theorem validate_ge1 (k : ℕ) (p : String) (ui ak : Option String) :
    _validate_prompt cm0 ge1 k p [1] ui ak = 1 := by
  unfold _validate_prompt ge1
  exact cosine_one_one

theorem validate_ge2_ne2 (k : ℕ) (hk : k ≠ 2) (p : String) (ui ak : Option String) :
    _validate_prompt cm0 ge2 k p [1, 0] ui ak = 1 := by
  unfold _validate_prompt ge2
  rw [if_neg hk]
  exact cosine_1010

theorem validate_ge2_2 (p : String) (ui ak : Option String) :
    _validate_prompt cm0 ge2 2 p [1, 0] ui ak = 0 := by
  unfold _validate_prompt ge2
  rw [if_pos rfl]
  exact cosine_1001

theorem test_ge2 (k : ℕ) (hk : k ≠ 2) (comps : List String) (i : ℕ) (act : Finset ℕ)
    (ui ak : Option String) (hne : (act.erase i).sort (· ≤ ·) ≠ []) :
    _test_removal_similarity cm0 ge2 k comps i act [1, 0] ui ak = 1 := by
  unfold _test_removal_similarity ge2
  rw [if_neg hne, if_neg hk]
  exact cosine_1010

theorem phase1_eval_default_Hi :
    phase1State cm0 ge0 ["Hi"] ([] : List ℝ) DEFAULT_SIMILARITY_THRESHOLD none none
      = (Finset.range 1, 0) := by
  unfold phase1State
  rw [show (List.range (["Hi"] : List String).length).reverse = [0] from by decide,
    List.foldl_cons, List.foldl_nil]
  unfold phase1Step testRemovalCallCount
  rw [test_baseline_nil,
    if_neg (by norm_num [DEFAULT_SIMILARITY_THRESHOLD] : ¬((0 : ℝ) ≥ DEFAULT_SIMILARITY_THRESHOLD))]
  have he : ((Finset.range (["Hi"] : List String).length, 0).1).erase 0 = ∅ := by decide
  rw [he, Finset.sort_empty]
  simp

theorem runPhase1_eval_default_Hi :
    runPhase1 cm0 ge0 pf0 none "Hi" none none = (Finset.range 1, 0) := by
  unfold runPhase1
  rw [thresh_pf0_default, show parse_components "Hi" = ["Hi"] from by decide,
    show runBaseline cm0 ge0 "Hi" none none = ([] : List ℝ) from rfl]
  exact phase1_eval_default_Hi

theorem red_eval_default_Hi :
    phase1Redundant cm0 ge0 pf0 none "Hi" none none = ∅ := by
  unfold phase1Redundant
  rw [runPhase1_eval_default_Hi, show parse_components "Hi" = ["Hi"] from by decide]
  decide

theorem phase1_eval_ge2 :
    phase1State cm0 ge2 ["A.", "B."] [1, 0] DEFAULT_SIMILARITY_THRESHOLD none none
      = ({0}, 1) := by
  unfold phase1State
  rw [show (List.range (["A.", "B."] : List String).length).reverse = [1, 0] from by decide,
    List.foldl_cons, List.foldl_cons, List.foldl_nil]
  have h1 : phase1Step cm0 ge2 ["A.", "B."] [1, 0] DEFAULT_SIMILARITY_THRESHOLD none none
      (Finset.range (["A.", "B."] : List String).length, 0) 1 = ({0}, 1) := by
    unfold phase1Step testRemovalCallCount
    have he : ((Finset.range (["A.", "B."] : List String).length, 0).1).erase 1 = {0} := by
      decide
    have hne : (((Finset.range (["A.", "B."] : List String).length, 0).1).erase 1).sort
        (· ≤ ·) ≠ [] := by
      rw [he, Finset.sort_singleton]
      simp
    rw [test_ge2 _ (by decide) ["A.", "B."] 1 _ none none hne,
      if_pos (by norm_num [DEFAULT_SIMILARITY_THRESHOLD] :
        (1 : ℝ) ≥ DEFAULT_SIMILARITY_THRESHOLD),
      he, Finset.sort_singleton]
    simp
  rw [h1]
  unfold phase1Step testRemovalCallCount
  have he0 : ((({0} : Finset ℕ), 1).1).erase 0 = ∅ := by decide
  have htest : _test_removal_similarity cm0 ge2 (1 + (({0} : Finset ℕ), 1).2) ["A.", "B."] 0
      (({0} : Finset ℕ), 1).1 [1, 0] none none = 0 := by
    unfold _test_removal_similarity
    rw [if_pos (by rw [he0]; exact Finset.sort_empty _)]
  rw [htest,
    if_neg (by norm_num [DEFAULT_SIMILARITY_THRESHOLD] :
      ¬((0 : ℝ) ≥ DEFAULT_SIMILARITY_THRESHOLD)),
    he0, Finset.sort_empty]
  simp

theorem runPhase1_eval_ge2 :
    runPhase1 cm0 ge2 pf0 none "A.\nB." none none = ({0}, 1) := by
  unfold runPhase1
  rw [thresh_pf0_default, show parse_components "A.\nB." = ["A.", "B."] from by decide,
    show runBaseline cm0 ge2 "A.\nB." none none = [1, 0] from rfl]
  exact phase1_eval_ge2

theorem red_eval_ge2 :
    phase1Redundant cm0 ge2 pf0 none "A.\nB." none none = {1} := by
  unfold phase1Redundant
  rw [runPhase1_eval_ge2, show parse_components "A.\nB." = ["A.", "B."] from by decide]
  decide

theorem phase2Sim_eval_ge2 :
    phase2Sim cm0 ge2 pf0 none "A.\nB." none none = 0 := by
  unfold phase2Sim
  rw [runPhase1_eval_ge2, show runBaseline cm0 ge2 "A.\nB." none none = [1, 0] from rfl]
  exact validate_ge2_2 _ none none

theorem phase3_eval_ge2 :
    phase3Loop cm0 ge2 ["A.", "B."] [1, 0] DEFAULT_SIMILARITY_THRESHOLD none none
      (2 + (({0} : Finset ℕ), 1).2) (({0} : Finset ℕ), 1).1 [1] = {0, 1} := by
  rw [phase3Loop_first_success cm0 ge2 ["A.", "B."] [1, 0] DEFAULT_SIMILARITY_THRESHOLD
    none none _ _ 1 []
    (by rw [validate_ge2_ne2 _ (by decide)]
        norm_num [DEFAULT_SIMILARITY_THRESHOLD])]
  decide

theorem run_eval_ge2 :
    run_stripe_analysis cm0 ge2 pf0 none "A.\nB." none none
      = assembleResult ["A.", "B."] {0, 1} "A.\nB." := by
  rw [run_eq_then cm0 ge2 pf0 none "A.\nB." none none (by decide)
    ⟨by rw [phase2Sim_eval_ge2, thresh_pf0_default]
        norm_num [DEFAULT_SIMILARITY_THRESHOLD],
     by rw [red_eval_ge2]; decide⟩]
  rw [show parse_components "A.\nB." = ["A.", "B."] from by decide, runPhase1_eval_ge2,
    red_eval_ge2, show runBaseline cm0 ge2 "A.\nB." none none = [1, 0] from rfl,
    thresh_pf0_default, Finset.sort_singleton, phase3_eval_ge2]

/-- C3: the Phase-3 recovery branch is taken exactly when the Phase-2
validation similarity is below the threshold and the removed set is
non-empty (both directions of the branch are stated); the list of
indices handed to the recovery loop is sorted ascending by original
index; the loop stops at the first restoration whose re-validation
reaches the threshold, restoring only that prefix; and when no
re-validation reaches the threshold it restores every removed
component. -/
theorem C3_phase3_trigger_and_order :
    (∀ (cm : ℕ → String → Option String → String)
        (ge : ℕ → String → Option String → List ℝ) (pf : String → Option ℝ)
        (env : Option String) (prompt : String) (ui ak : Option String),
      parse_components prompt ≠ [] →
      ¬(phase2Sim cm ge pf env prompt ui ak < _get_similarity_threshold pf env ∧
          phase1Redundant cm ge pf env prompt ui ak ≠ ∅) →
      run_stripe_analysis cm ge pf env prompt ui ak
        = assembleResult (parse_components prompt)
            (runPhase1 cm ge pf env prompt ui ak).1 prompt) ∧
    (∀ (cm : ℕ → String → Option String → String)
        (ge : ℕ → String → Option String → List ℝ) (pf : String → Option ℝ)
        (env : Option String) (prompt : String) (ui ak : Option String),
      parse_components prompt ≠ [] →
      (phase2Sim cm ge pf env prompt ui ak < _get_similarity_threshold pf env ∧
          phase1Redundant cm ge pf env prompt ui ak ≠ ∅) →
      run_stripe_analysis cm ge pf env prompt ui ak
        = assembleResult (parse_components prompt)
            (phase3Loop cm ge (parse_components prompt)
              (runBaseline cm ge prompt ui ak) (_get_similarity_threshold pf env) ui ak
              (2 + (runPhase1 cm ge pf env prompt ui ak).2)
              (runPhase1 cm ge pf env prompt ui ak).1
              ((phase1Redundant cm ge pf env prompt ui ak).sort (· ≤ ·)))
            prompt) ∧
    (∀ (cm : ℕ → String → Option String → String)
        (ge : ℕ → String → Option String → List ℝ) (pf : String → Option ℝ)
        (env : Option String) (prompt : String) (ui ak : Option String),
      List.Sorted (· ≤ ·)
        ((phase1Redundant cm ge pf env prompt ui ak).sort (· ≤ ·))) ∧
    (∀ (cm : ℕ → String → Option String → String)
        (ge : ℕ → String → Option String → List ℝ)
        (comps : List String) (baseline : List ℝ) (t : ℝ) (ui ak : Option String)
        (k : ℕ) (active : Finset ℕ) (idx : ℕ) (rest : List ℕ),
      _validate_prompt cm ge k
          (renderIndices comps ((insert idx active).sort (· ≤ ·))) baseline ui ak ≥ t →
      phase3Loop cm ge comps baseline t ui ak k active (idx :: rest) = insert idx active) ∧
    (∀ (cm : ℕ → String → Option String → String)
        (ge : ℕ → String → Option String → List ℝ)
        (comps : List String) (baseline : List ℝ) (t : ℝ) (ui ak : Option String)
        (k : ℕ) (active : Finset ℕ) (l : List ℕ),
      (∀ (j : ℕ) (s : Finset ℕ),
        _validate_prompt cm ge j (renderIndices comps (s.sort (· ≤ ·))) baseline ui ak < t) →
      phase3Loop cm ge comps baseline t ui ak k active l = active ∪ l.toFinset) := by
  exact ⟨run_eq_else, run_eq_then, fun cm ge pf env prompt ui ak => Finset.sort_sorted _ _,
    phase3Loop_first_success, phase3Loop_exhaust⟩

/-- Witness for C3: the no-recovery direction on a run that removes
nothing, the recovery direction on a run whose validation fails, a
first-restoration success stopping the loop immediately, and an
all-restorations-fail loop restoring everything. -/
theorem C3_phase3_trigger_and_order_witness :
    run_stripe_analysis cm0 ge0 pf0 none "Hi" none none
      = assembleResult (parse_components "Hi")
          (runPhase1 cm0 ge0 pf0 none "Hi" none none).1 "Hi" ∧
    run_stripe_analysis cm0 ge2 pf0 none "A.\nB." none none
      = assembleResult (parse_components "A.\nB.")
          (phase3Loop cm0 ge2 (parse_components "A.\nB.")
            (runBaseline cm0 ge2 "A.\nB." none none) (_get_similarity_threshold pf0 none)
            none none
            (2 + (runPhase1 cm0 ge2 pf0 none "A.\nB." none none).2)
            (runPhase1 cm0 ge2 pf0 none "A.\nB." none none).1
            ((phase1Redundant cm0 ge2 pf0 none "A.\nB." none none).sort (· ≤ ·)))
          "A.\nB." ∧
    phase3Loop cm0 ge1 ["A.", "B."] [1] DEFAULT_SIMILARITY_THRESHOLD none none 5 ∅ [0, 1]
      = insert 0 ∅ ∧
    phase3Loop cm0 ge0 ["A.", "B."] ([] : List ℝ) DEFAULT_SIMILARITY_THRESHOLD none none
        5 ∅ [0, 1]
      = ∅ ∪ ([0, 1] : List ℕ).toFinset := by
  refine ⟨?_, ?_, ?_, ?_⟩
  · exact C3_phase3_trigger_and_order.1 cm0 ge0 pf0 none "Hi" none none (by decide)
      (fun hcontra => hcontra.2 red_eval_default_Hi)
  · exact C3_phase3_trigger_and_order.2.1 cm0 ge2 pf0 none "A.\nB." none none (by decide)
      ⟨by rw [phase2Sim_eval_ge2, thresh_pf0_default]
          norm_num [DEFAULT_SIMILARITY_THRESHOLD],
       by rw [red_eval_ge2]; decide⟩
  · exact C3_phase3_trigger_and_order.2.2.2.1 cm0 ge1 ["A.", "B."] [1]
      DEFAULT_SIMILARITY_THRESHOLD none none 5 ∅ 0 [1]
      (by rw [validate_ge1]
          norm_num [DEFAULT_SIMILARITY_THRESHOLD])
  · exact C3_phase3_trigger_and_order.2.2.2.2 cm0 ge0 ["A.", "B."] []
      DEFAULT_SIMILARITY_THRESHOLD none none 5 ∅ [0, 1]
      (fun j s => by
        rw [validate_baseline_nil]
        norm_num [DEFAULT_SIMILARITY_THRESHOLD])

theorem assembleResult_improved_of_kept_ne (comps : List String) (active : Finset ℕ)
    (prompt : String) (h : (assembleResult comps active prompt).components_kept ≠ []) :
    (assembleResult comps active prompt).improved_prompt
      = " ".intercalate (assembleResult comps active prompt).components_kept := by
  have h2 : (_classify_components comps (Finset.range comps.length \ active)).1 ≠ [] := h
  show _build_improved_prompt _ prompt = _
  unfold _build_improved_prompt
  rw [if_neg h2]
  rfl

/-- C10: whenever the kept list is non-empty the improved prompt is
exactly the kept component texts joined with single spaces; and on a
concrete multi-line prompt where Phase 3 restores the one removed
component (so nothing is removed and the score is 0.0), the improved
prompt is the space-joined parsed components, which differs from the
original newline-separated prompt. -/
theorem C10_improved_prompt_join :
    (∀ (cm : ℕ → String → Option String → String)
        (ge : ℕ → String → Option String → List ℝ) (pf : String → Option ℝ)
        (env : Option String) (prompt : String) (ui ak : Option String),
      (run_stripe_analysis cm ge pf env prompt ui ak).components_kept ≠ [] →
      (run_stripe_analysis cm ge pf env prompt ui ak).improved_prompt
        = " ".intercalate (run_stripe_analysis cm ge pf env prompt ui ak).components_kept) ∧
    (run_stripe_analysis cm0 ge2 pf0 none "A.\nB." none none).components_removed = [] ∧
    (run_stripe_analysis cm0 ge2 pf0 none "A.\nB." none none).over_engineered_score = 0 ∧
    (run_stripe_analysis cm0 ge2 pf0 none "A.\nB." none none).improved_prompt
      = " ".intercalate (parse_components "A.\nB.") ∧
    (run_stripe_analysis cm0 ge2 pf0 none "A.\nB." none none).improved_prompt
      ≠ "A.\nB." := by
  have hjoin : ∀ (cm : ℕ → String → Option String → String)
      (ge : ℕ → String → Option String → List ℝ) (pf : String → Option ℝ)
      (env : Option String) (prompt : String) (ui ak : Option String),
      (run_stripe_analysis cm ge pf env prompt ui ak).components_kept ≠ [] →
      (run_stripe_analysis cm ge pf env prompt ui ak).improved_prompt
        = " ".intercalate (run_stripe_analysis cm ge pf env prompt ui ak).components_kept := by
    intro cm ge pf env prompt ui ak h
    by_cases hp : parse_components prompt = []
    · rw [run_eq_zero cm ge pf env prompt ui ak hp] at h
      exact absurd rfl h
    · by_cases hc : phase2Sim cm ge pf env prompt ui ak < _get_similarity_threshold pf env ∧
          phase1Redundant cm ge pf env prompt ui ak ≠ ∅
      · rw [run_eq_then cm ge pf env prompt ui ak hp hc] at h ⊢
        exact assembleResult_improved_of_kept_ne _ _ _ h
      · rw [run_eq_else cm ge pf env prompt ui ak hp hc] at h ⊢
        exact assembleResult_improved_of_kept_ne _ _ _ h
  refine ⟨hjoin, ?_, ?_, ?_, ?_⟩
  · rw [run_eval_ge2]
    decide
  · rw [run_eval_ge2]
    dsimp only [assembleResult]
    rw [show Finset.range (["A.", "B."] : List String).length \ ({0, 1} : Finset ℕ) = ∅
      from by decide]
    norm_num [pyRound2_zero]
  · rw [run_eval_ge2, show parse_components "A.\nB." = ["A.", "B."] from by decide]
    dsimp only [assembleResult]
    rw [show (_classify_components ["A.", "B."]
        (Finset.range (["A.", "B."] : List String).length \ ({0, 1} : Finset ℕ))).1
      = ["A.", "B."] from by decide]
    unfold _build_improved_prompt
    rw [if_neg (by decide)]
  · rw [run_eval_ge2]
    dsimp only [assembleResult]
    rw [show (_classify_components ["A.", "B."]
        (Finset.range (["A.", "B."] : List String).length \ ({0, 1} : Finset ℕ))).1
      = ["A.", "B."] from by decide]
    unfold _build_improved_prompt
    rw [if_neg (by decide)]
    decide

/-- Witness for C10: the join conjunct applied to the concrete
three-phase run, whose kept list is non-empty. -/
theorem C10_improved_prompt_join_witness :
    (run_stripe_analysis cm0 ge2 pf0 none "A.\nB." none none).improved_prompt
      = " ".intercalate
          (run_stripe_analysis cm0 ge2 pf0 none "A.\nB." none none).components_kept :=
  C10_improved_prompt_join.1 cm0 ge2 pf0 none "A.\nB." none none
    (by rw [run_eval_ge2]; decide)

end Striper
